import Mathlib

/-!
Verification of the GPS → LoRa telemetry-relay scripts.

This file gives a shallow embedding of the relevant parts of the repository:

* `gps1.py` — the dual-backend GPS → LoRa sender: `haversine_m`, the backend
  selection in `main` (`init_lora_driver` / `init_lora_at` / fatal exit), and
  the body of the main relay loop (NMEA line handling, fix validity via Python
  truthiness, displacement speed derivation with the 0.5 m jitter guard, and
  the payload f-string `"{ts} LAT:{lat:.7f} LON:{lon:.7f} SPD:{spd:.2f}km/h"`).
* `rec.py` — the receiver's regular expression
  `LAT:([\d\.\-]+)\s+LON:([\d\.\-]+)\s+SPD:([\d\.]+)km/h` and the `float`
  conversion of its groups.
* `ant.py` — `convert_to_decimal` (DDMM.MMMM → decimal degrees with rounding).
* `gps.py` — `GPSModule.read_location` and `_convert_to_degrees`.

Python floats are modelled by exact arithmetic: field values carried by parsed
sentences are rationals, and the trigonometric haversine computation is over
the reals.  Python `round`/`"%.nf"` formatting is modelled with `round` on the
scaled value (half-way cases aside, this is exactly `float.__format__`).
-/

namespace GpsRelay

/-! ## Decimal digit rendering and parsing -/

/-- The ASCII character of a decimal digit (`0 ≤ d ≤ 9`). -/
def digitChar (d : ℕ) : Char := Char.ofNat (48 + d)

/-- The numeric value of an ASCII decimal digit character. -/
def charVal (c : Char) : ℕ := c.toNat - 48

/-- The decimal digits of `m`, most-significant first, as Python's `str(int)`
renders them (so `0` renders as `"0"`). -/
def natDigitsChars (m : ℕ) : List Char :=
  if m = 0 then ['0'] else ((Nat.digits 10 m).reverse.map digitChar)

/-- The last `d` decimal digits of `m`, most-significant first, with leading
zeros — the fractional part of Python's fixed-point `"%.df"` formatting. -/
def padDigits : ℕ → ℕ → List ℕ
  | 0, _ => []
  | d + 1, m => padDigits d (m / 10) ++ [m % 10]

/-- Reads a string of decimal digit characters as a natural number. -/
def parseNat (cs : List Char) : ℕ :=
  cs.foldl (fun a c => 10 * a + charVal c) 0

/-- Python's `float(s)` on an unsigned decimal string: digits with an
optional fractional part.  `none` models a `ValueError`. -/
def parseUnsignedFloat (cs : List Char) : Option ℚ :=
  let intPart := cs.takeWhile (fun c => c.isDigit)
  let rest := cs.dropWhile (fun c => c.isDigit)
  match rest with
  | [] => if intPart = [] then none else some (parseNat intPart)
  | c :: frac =>
      if c = '.' ∧ (∀ x ∈ frac, x.isDigit = true) ∧ (intPart ≠ [] ∨ frac ≠ []) then
        some ((parseNat intPart : ℚ) + (parseNat frac : ℚ) / 10 ^ frac.length)
      else none

/-- Python's `float(s)`, with an optional leading minus sign. -/
def parseFloat (cs : List Char) : Option ℚ :=
  match cs with
  | [] => none
  | c :: t =>
      if c = '-' then (parseUnsignedFloat t).map (fun q => -q)
      else parseUnsignedFloat (c :: t)

/-- Fixed-point rendering of the scaled integer `n` with `d` decimal places:
`fmtScaled n d` is the digit string whose value is `n / 10^d`.  With
`n = round (x * 10^d)` this is Python's `f"{x:.df}"`. -/
def fmtScaled (n : ℤ) (d : ℕ) : List Char :=
  (if n < 0 then ['-'] else []) ++ natDigitsChars (n.natAbs / 10 ^ d)
    ++ '.' :: (padDigits d (n.natAbs % 10 ^ d)).map digitChar

/-- Python's `f"{q:.df}"` for a rational value. -/
def fmtRat (q : ℚ) (d : ℕ) : List Char := fmtScaled (round (q * 10 ^ d)) d

/-- Python's `f"{x:.df}"` for a real value. -/
noncomputable def fmtReal (x : ℝ) (d : ℕ) : List Char :=
  fmtScaled (round (x * 10 ^ d)) d

/-! ## Data model of the relay (`gps1.py`) -/

/-- A wall-clock timestamp as produced by
`datetime.utcnow().strftime("%Y-%m-%d %H:%M:%S")`. -/
structure Timestamp where
  year : ℕ
  month : ℕ
  day : ℕ
  hour : ℕ
  minute : ℕ
  second : ℕ
deriving DecidableEq

/-- The characters of `strftime("%Y-%m-%d %H:%M:%S")`. -/
def tsChars (t : Timestamp) : List Char :=
  (padDigits 4 t.year).map digitChar
    ++ '-' :: (padDigits 2 t.month).map digitChar
    ++ '-' :: (padDigits 2 t.day).map digitChar
    ++ ' ' :: (padDigits 2 t.hour).map digitChar
    ++ ':' :: (padDigits 2 t.minute).map digitChar
    ++ ':' :: (padDigits 2 t.second).map digitChar

/-- `pynmea2.ParseError` — the exception raised on a malformed sentence. -/
structure ParseError where
  message : String
deriving DecidableEq

/-- A parsed GGA/RMC-family message as `gps1.py` consumes it: the `latitude`,
`longitude` properties (absent attributes modelled by `none`), the epoch value
derived from the sentence's UTC `timestamp` field (already combined with
today's date; `none` when the field is absent or the combination failed), and
the ground speed in knots carried by RMC sentences (never read by `gps1.py`).
Field values are rationals standing for the Python floats. -/
structure NmeaMsg where
  latitude : Option ℚ
  longitude : Option ℚ
  gpsTime : Option ℚ
  spdOverGrndKnots : Option ℚ
deriving DecidableEq

/-- One iteration's input to the relay loop of `gps1.py`: what `readline`
produced (`skip` covers empty lines and unrecognized sentence types, `nmea`
a recognized `$..GGA`/`$..RMC` line together with `pynmea2.parse`'s outcome),
the value `time.time()` would return, and the UTC wall-clock timestamp used
for the payload. -/
inductive LineContent
  | skip
  | nmea (result : Except ParseError NmeaMsg)

structure LineEvent where
  content : LineContent
  wall : ℚ
  sendTs : Timestamp

/-- The mutable locals of `gps1.py`'s `main` loop:
`last_lat`, `last_lon`, `last_time`, `last_fix_valid`. -/
structure LoopState where
  lastLat : Option ℚ
  lastLon : Option ℚ
  lastTime : Option ℚ
  lastFixValid : Bool
deriving DecidableEq

/-- `last_lat = last_lon = last_time = None; last_fix_valid = False`. -/
def initState : LoopState := ⟨none, none, none, false⟩

/-- The components of one transmitted payload (the telemetry message):
timestamp, latitude, longitude, speed in km/h. -/
structure Telemetry where
  ts : Timestamp
  lat : ℚ
  lon : ℚ
  speedKmh : ℝ

/-- Python truthiness of an optional float, as in
`hasattr(msg, "latitude") and msg.latitude`:
false for a missing attribute and for the value `0.0`. -/
def truthy : Option ℚ → Bool
  | none => false
  | some x => decide (x ≠ 0)

/-- `current_time = gps_time if gps_time else time.time()` (`gps1.py:277`);
note that a (falsy) zero epoch also falls back to `time.time()`. -/
def currentTimeOf (m : NmeaMsg) (wall : ℚ) : ℚ :=
  match m.gpsTime with
  | some t => if t = 0 then wall else t
  | none => wall

/-! ## Haversine distance (`gps1.py:50-59`) -/

/-- `math.radians`. -/
noncomputable def radians (x : ℝ) : ℝ := x * Real.pi / 180

/-- `math.atan2 y x` (C convention). -/
noncomputable def atan2 (y x : ℝ) : ℝ :=
  if 0 < x then Real.arctan (y / x)
  else if x < 0 ∧ 0 ≤ y then Real.arctan (y / x) + Real.pi
  else if x < 0 ∧ y < 0 then Real.arctan (y / x) - Real.pi
  else if x = 0 ∧ 0 < y then Real.pi / 2
  else if x = 0 ∧ y < 0 then -(Real.pi / 2)
  else 0

/-- `haversine_m` from `gps1.py`: great-circle distance in meters between two
latitude/longitude points, Earth radius 6,371,000 m. -/
noncomputable def haversine_m (lat1 lon1 lat2 lon2 : ℝ) : ℝ :=
  let phi1 := radians lat1
  let phi2 := radians lat2
  let dphi := radians (lat2 - lat1)
  let dlambda := radians (lon2 - lon1)
  let a := Real.sin (dphi / 2) ^ 2
    + Real.cos phi1 * Real.cos phi2 * Real.sin (dlambda / 2) ^ 2
  let c := 2 * atan2 (Real.sqrt a) (Real.sqrt (1 - a))
  6371000 * c

/-! ## The relay-loop body (`gps1.py:252-299`) -/

/-- The speed computation of `gps1.py:279-285`: starting from
`speed_kmh = 0.0`, if a valid prior fix exists, the haversine displacement and
elapsed time are computed and `speed_kmh = dist_m / dt * 3.6` is set only when
`dt > 0 and dist_m > 0.5` (the `> 0.5 m` comparison is the jitter guard). -/
noncomputable def derivedSpeed (s : LoopState) (lat lon ct : ℚ) : ℝ :=
  match s.lastFixValid, s.lastLat, s.lastLon, s.lastTime with
  | true, some la, some lo, some lt =>
      let dist := haversine_m (la : ℝ) (lo : ℝ) (lat : ℝ) (lon : ℝ)
      let dt : ℚ := ct - lt
      if 0 < dt then (if (0.5 : ℝ) < dist then dist / (dt : ℝ) * 3.6 else 0) else 0
  | _, _, _, _ => 0

/-- One iteration of the `while True` body of `gps1.py`'s `main`, from a read
line to the optional transmitted telemetry: a `ParseError` is caught and the
iteration abandoned (`continue`); a message whose `latitude`/`longitude` is
missing or falsy resets `last_fix_valid` and is dropped; otherwise the speed
is derived, the `last_*` state is overwritten with the new fix, and a payload
is emitted. -/
noncomputable def step (s : LoopState) (ev : LineEvent) : LoopState × Option Telemetry :=
  match ev.content with
  | .skip => (s, none)
  | .nmea (.error _) => (s, none)
  | .nmea (.ok msg) =>
      if truthy msg.latitude && truthy msg.longitude then
        let lat : ℚ := msg.latitude.getD 0
        let lon : ℚ := msg.longitude.getD 0
        let ct : ℚ := currentTimeOf msg ev.wall
        let speed : ℝ := derivedSpeed s lat lon ct
        (⟨some lat, some lon, some ct, true⟩, some ⟨ev.sendTs, lat, lon, speed⟩)
      else
        ({ s with lastFixValid := false }, none)

/-- The relay loop over a finite trace of line events, collecting the
telemetry messages passed to `send_lora`. -/
noncomputable def runLoop : LoopState → List LineEvent → LoopState × List Telemetry
  | s, [] => (s, [])
  | s, ev :: rest =>
      let out := step s ev
      let tail := runLoop out.1 rest
      (tail.1, match out.2 with
               | some t => t :: tail.2
               | none => tail.2)

/-- The payload f-string of `gps1.py:291`:
`f"{timestamp} LAT:{lat:.7f} LON:{lon:.7f} SPD:{speed_kmh:.2f}km/h"`. -/
noncomputable def renderTelemetry (t : Telemetry) : String :=
  String.mk (tsChars t.ts
    ++ [' ', 'L', 'A', 'T', ':'] ++ fmtRat t.lat 7
    ++ [' ', 'L', 'O', 'N', ':'] ++ fmtRat t.lon 7
    ++ [' ', 'S', 'P', 'D', ':'] ++ fmtReal t.speedKmh 2
    ++ ['k', 'm', '/', 'h'])

/-- Whether a line event carries a successfully parsed message with truthy
latitude and longitude — the condition under which `gps1.py` accepts a fix. -/
def evHasValidFix (ev : LineEvent) : Bool :=
  match ev.content with
  | .nmea (.ok m) => truthy m.latitude && truthy m.longitude
  | _ => false

/-! ## Startup backend selection (`gps1.py:207-229`) -/

/-- The two transport backends `main` can end up with. -/
inductive Backend
  | spiDriver
  | atModem
deriving DecidableEq

/-- The environment facts startup depends on: whether `from LoRaRF import
SX126x` succeeded, whether `lora.begin(...)` succeeds, whether the AT-mode
port path exists, and whether opening it succeeds. -/
structure StartEnv where
  hasSX126x : Bool
  sxBeginOk : Bool
  atPortExists : Bool
  atOpenOk : Bool
deriving DecidableEq

/-- `init_lora_driver`: `None` unless the SX126x driver imported and its
`begin` call succeeds. -/
def init_lora_driver (e : StartEnv) : Option Backend :=
  if e.hasSX126x then (if e.sxBeginOk then some .spiDriver else none) else none

/-- `init_lora_at`: `None` unless the AT-mode port exists and opens. -/
def init_lora_at (e : StartEnv) : Option Backend :=
  if e.atPortExists then (if e.atOpenOk then some .atModem else none) else none

/-- The fatal message printed when no LoRa interface is available. -/
def fatalNoLoraMsg : String :=
  "[FATAL] No LoRa interface available. Install LoRaRF or enable AT-mode on the HAT."

/-- The backend-selection part of `main` (`gps1.py:210-229`): try the
SX126x driver when the import succeeded, else the AT fallback, else
`sys.exit(1)` after the fatal message. -/
def mainStartup (e : StartEnv) : Except (ℕ × String) Backend :=
  match (if e.hasSX126x then init_lora_driver e else none) with
  | some b => .ok b
  | none =>
      match init_lora_at e with
      | some b => .ok b
      | none => .error (1, fatalNoLoraMsg)

/-! ## The receiver's payload regex (`rec.py:173`) and parsing -/

/-- The character class `[\d\.\-]` of the LAT/LON groups. -/
def cls1 (c : Char) : Bool := c.isDigit || c = '.' || c = '-'

/-- The character class `[\d\.]` of the SPD group. -/
def cls2 (c : Char) : Bool := c.isDigit || c = '.'

/-- Python's `\s` class. -/
def isSpaceChar (c : Char) : Bool :=
  c = ' ' || c = '\t' || c = '\n' || c = '\r' || c = '\x0b' || c = '\x0c'

/-- Matches a literal character sequence, returning the remainder. -/
def expectLit : List Char → List Char → Option (List Char)
  | [], cs => some cs
  | p :: ps, c :: cs => if c = p then expectLit ps cs else none
  | _ :: _, [] => none

/-- Matches one-or-more characters of a class (greedy `[..]+`), returning the
captured group and the remainder. -/
def grabClass (p : Char → Bool) (cs : List Char) : Option (List Char × List Char) :=
  let g := cs.takeWhile p
  if g = [] then none else some (g, cs.dropWhile p)

/-- The receiver's pattern `LAT:([\d\.\-]+)\s+LON:([\d\.\-]+)\s+SPD:([\d\.]+)km/h`
anchored at the start of the input, returning the three captured groups. -/
def matchPayloadAt (cs : List Char) : Option (List Char × List Char × List Char) :=
  match expectLit ['L', 'A', 'T', ':'] cs with
  | none => none
  | some cs =>
    match grabClass cls1 cs with
    | none => none
    | some (g1, cs) =>
      match grabClass isSpaceChar cs with
      | none => none
      | some (_, cs) =>
        match expectLit ['L', 'O', 'N', ':'] cs with
        | none => none
        | some cs =>
          match grabClass cls1 cs with
          | none => none
          | some (g2, cs) =>
            match grabClass isSpaceChar cs with
            | none => none
            | some (_, cs) =>
              match expectLit ['S', 'P', 'D', ':'] cs with
              | none => none
              | some cs =>
                match grabClass cls2 cs with
                | none => none
                | some (g3, cs) =>
                  match expectLit ['k', 'm', '/', 'h'] cs with
                  | none => none
                  | some _ => some (g1, g2, g3)

/-- `re.search` with the receiver's pattern: the leftmost position where the
anchored pattern matches. -/
def searchPayload : List Char → Option (List Char × List Char × List Char)
  | [] => none
  | c :: t =>
      match matchPayloadAt (c :: t) with
      | some g => some g
      | none => searchPayload t

/-! ## `ant.py`'s and `gps.py`'s coordinate conversions -/

/-- `convert_to_decimal` from `ant.py`: DDMM.MMMM / DDDMM.MMMM to decimal
degrees via `int(raw // 100) + (raw % 100) / 60`, negated for S/W, rounded to
6 decimal places; `None` for an empty field or direction. -/
def convert_to_decimal (rawVal : Option ℚ) (direction : String) : Option ℚ :=
  match rawVal with
  | none => none
  | some raw =>
      if direction = "" then none
      else
        let degrees : ℤ := ⌊raw / 100⌋
        let minutes : ℚ := raw - 100 * ⌊raw / 100⌋
        let decimal : ℚ := degrees + minutes / 60
        let signed : ℚ := if direction = "S" ∨ direction = "W" then -decimal else decimal
        some ((round (signed * 10 ^ 6) : ℤ) / 10 ^ 6)

/-- `GPSModule._convert_to_degrees` from `gps.py`: `float(raw[:2])` degrees
plus `float(raw[2:]) / 60` minutes, `0.0` when either conversion fails. -/
def convert_to_degrees (raw : List Char) : ℚ :=
  match parseFloat (raw.take 2), parseFloat (raw.drop 2) with
  | some d, some m => d + m / 60
  | _, _ => 0

/-- The `$GPGGA` branch of `GPSModule.read_location` (`gps.py:86-95`): given
the latitude/longitude fields and hemisphere letters of a GGA sentence with
enough fields, converts both coordinates and applies the S/W sign; `None`
when either coordinate field is empty. -/
def read_location (latField : List Char) (latDir : List Char)
    (lonField : List Char) (lonDir : List Char) : Option (ℚ × ℚ) :=
  if latField ≠ [] ∧ lonField ≠ [] then
    let lat := convert_to_degrees latField
    let lon := convert_to_degrees lonField
    let lat := if latDir = ['S'] then -lat else lat
    let lon := if lonDir = ['W'] then -lon else lon
    some (lat, lon)
  else none

/-- The reference conversion stated by the spec: `degrees + minutes/60` for a
DDMM.MMMM / DDDMM.MMMM raw value, sign flipped for a south/west hemisphere.
This is the specification-side definition that the code is compared against. -/
def specDecimalDegrees (raw : ℚ) (southOrWest : Bool) : ℚ :=
  let degrees : ℤ := ⌊raw / 100⌋
  let minutes : ℚ := raw - 100 * ⌊raw / 100⌋
  if southOrWest then -(degrees + minutes / 60) else degrees + minutes / 60

/-! ## RelayLoop watchdog -/

/-- Modelled from the spec: the repository's scripts have no watchdog/REINIT
logic, so the RelayLoop stall watchdog of spec §4.6 is modelled from the
spec's words.  The state holds the instant of the last successful send and
the current transport handle with an acquisition counter (a fresh handle has
a larger counter). -/
structure RelayState where
  lastSuccessTime : ℚ
  handle : Option Backend
  generation : ℕ
deriving DecidableEq

/-- Modelled from the spec: the configured stall threshold (default 1.2 s
beyond the nominal send interval). -/
structure RelayConfig where
  stallThreshold : ℚ
deriving DecidableEq

/-- Modelled from the spec (§4.6 step 3-4): one relay cycle after the send
attempt.  On a successful send the last-success instant is recorded; otherwise
if the elapsed time since the last successful send exceeds the stall
threshold the loop transitions to REINIT — the handle is released and a fresh
one is reacquired through the original backend-selection policy
(`mainStartup`), the stall episode restarts — and the loop resumes RUNNING.
The returned flag reports whether a REINIT happened this cycle; the loop
never terminates on stalls. -/
def relayCycle (cfg : RelayConfig) (env : StartEnv) (s : RelayState)
    (now : ℚ) (sendOk : Bool) : RelayState × Bool :=
  if sendOk then ({ s with lastSuccessTime := now }, false)
  else if cfg.stallThreshold < now - s.lastSuccessTime then
    (⟨now, (mainStartup env).toOption, s.generation + 1⟩, true)
  else (s, false)

/-- A line event carrying a GGA-style fix (no sentence time, no ground
speed), used for concrete executions of the relay loop. -/
def mkFixEv (lat lon wall : ℚ) : LineEvent :=
  ⟨.nmea (.ok ⟨some lat, some lon, none, none⟩), wall, ⟨2025, 9, 19, 12, 0, 0⟩⟩

/-! # Lemmas -/

/-! ## Decimal digits -/

theorem digitChar_isDigit {d : ℕ} (h : d < 10) : (digitChar d).isDigit = true := by
  interval_cases d <;> decide

theorem charVal_digitChar {d : ℕ} (h : d < 10) : charVal (digitChar d) = d := by
  interval_cases d <;> decide

theorem digitChar_ne {d : ℕ} (h : d < 10) {c : Char} (hc : c.isDigit = false) :
    digitChar d ≠ c := by
  intro he
  have hd := digitChar_isDigit h
  rw [he, hc] at hd
  exact Bool.false_ne_true hd

theorem natDigitsChars_ne_nil (m : ℕ) : natDigitsChars m ≠ [] := by
  unfold natDigitsChars
  split
  · simp
  · next h =>
    simp only [ne_eq, List.map_eq_nil_iff, List.reverse_eq_nil_iff]
    exact Nat.digits_ne_nil_iff_ne_zero.mpr h

theorem mem_natDigitsChars_isDigit (m : ℕ) :
    ∀ c ∈ natDigitsChars m, c.isDigit = true := by
  intro c hc
  unfold natDigitsChars at hc
  split at hc
  · simp at hc
    simp [hc]
  · simp only [List.mem_map, List.mem_reverse] at hc
    obtain ⟨d, hd, rfl⟩ := hc
    exact digitChar_isDigit (Nat.digits_lt_base (by norm_num) hd)

theorem padDigits_length (d m : ℕ) : (padDigits d m).length = d := by
  induction d generalizing m with
  | zero => rfl
  | succ d ih => simp [padDigits, ih]

theorem mem_padDigits_lt (d m : ℕ) : ∀ x ∈ padDigits d m, x < 10 := by
  induction d generalizing m with
  | zero => intro x hx; simp [padDigits] at hx
  | succ d ih =>
    intro x hx
    simp only [padDigits, List.mem_append, List.mem_singleton] at hx
    rcases hx with hx | rfl
    · exact ih _ x hx
    · exact Nat.mod_lt _ (by norm_num)

theorem foldl_digitVal (ds : List ℕ) (h : ∀ x ∈ ds, x < 10) (a : ℕ) :
    List.foldl (fun a c => 10 * a + charVal c) a (ds.map digitChar)
      = List.foldl (fun a x => 10 * a + x) a ds := by
  induction ds generalizing a with
  | nil => rfl
  | cons d t ih =>
    simp only [List.map_cons, List.foldl_cons]
    rw [charVal_digitChar (h d (List.mem_cons_self d t))]
    exact ih (fun x hx => h x (List.mem_cons_of_mem d hx)) _

theorem foldl_base10 (ds : List ℕ) (a : ℕ) :
    List.foldl (fun a x => 10 * a + x) a ds
      = a * 10 ^ ds.length + Nat.ofDigits 10 ds.reverse := by
  induction ds generalizing a with
  | nil => simp [Nat.ofDigits_nil]
  | cons d t ih =>
    simp only [List.foldl_cons, List.reverse_cons, List.length_cons]
    rw [ih, Nat.ofDigits_append, Nat.ofDigits_singleton, List.length_reverse]
    ring

theorem parseNat_natDigitsChars (m : ℕ) : parseNat (natDigitsChars m) = m := by
  by_cases hm : m = 0
  · subst hm; decide
  · unfold parseNat natDigitsChars
    rw [if_neg hm,
      foldl_digitVal _ (fun x hx =>
        Nat.digits_lt_base (by norm_num) (List.mem_reverse.mp hx)),
      foldl_base10]
    simp [Nat.ofDigits_digits]

theorem ofDigits_padDigits (d m : ℕ) :
    Nat.ofDigits 10 (padDigits d m).reverse = m % 10 ^ d := by
  induction d generalizing m with
  | zero => simp [padDigits, Nat.ofDigits_nil, Nat.mod_one]
  | succ d ih =>
    simp only [padDigits, List.reverse_append, List.reverse_cons, List.reverse_nil,
      List.nil_append, List.cons_append, Nat.ofDigits_cons, ih]
    have hp : 10 ^ (d + 1) = 10 * 10 ^ d := by ring
    rw [hp]
    have h2 : m % (10 * 10 ^ d) / 10 = m / 10 % 10 ^ d :=
      Nat.mod_mul_right_div_self m 10 (10 ^ d)
    have h1 : m % (10 * 10 ^ d) % 10 = m % 10 :=
      Nat.mod_mod_of_dvd m ⟨10 ^ d, rfl⟩
    have h3 := Nat.div_add_mod (m % (10 * 10 ^ d)) 10
    omega

theorem parseNat_padDigits (d m : ℕ) :
    parseNat ((padDigits d m).map digitChar) = m % 10 ^ d := by
  unfold parseNat
  rw [foldl_digitVal _ (mem_padDigits_lt d m), foldl_base10, ofDigits_padDigits]
  simp

/-! ## takeWhile / dropWhile across a boundary -/

theorem takeWhile_middle (p : Char → Bool) (l1 : List Char) (c : Char) (l2 : List Char)
    (h1 : ∀ x ∈ l1, p x = true) (h2 : p c = false) :
    (l1 ++ c :: l2).takeWhile p = l1 := by
  induction l1 with
  | nil => simp [List.takeWhile_cons, h2]
  | cons a t ih =>
    have ha := h1 a (List.mem_cons_self a t)
    simp [List.takeWhile_cons, ha, ih (fun x hx => h1 x (List.mem_cons_of_mem a hx))]

theorem dropWhile_middle (p : Char → Bool) (l1 : List Char) (c : Char) (l2 : List Char)
    (h1 : ∀ x ∈ l1, p x = true) (h2 : p c = false) :
    (l1 ++ c :: l2).dropWhile p = c :: l2 := by
  induction l1 with
  | nil => simp [List.dropWhile_cons, h2]
  | cons a t ih =>
    have ha := h1 a (List.mem_cons_self a t)
    simp [List.dropWhile_cons, ha, ih (fun x hx => h1 x (List.mem_cons_of_mem a hx))]

/-! ## Round-trip of fixed-point formatting through `float` parsing -/

theorem parseFloat_neg_cons (t : List Char) :
    parseFloat ('-' :: t) = (parseUnsignedFloat t).map (fun q => -q) := by
  simp [parseFloat]

theorem parseFloat_head_digit (c : Char) (t : List Char) (h : c.isDigit = true) :
    parseFloat (c :: t) = parseUnsignedFloat (c :: t) := by
  have hcne : ¬ c = '-' := by
    intro hc
    rw [hc] at h
    exact Bool.false_ne_true ((by decide : ('-' : Char).isDigit = false).symm.trans h)
  simp [parseFloat, hcne]

theorem parseUnsignedFloat_fmt (i fr : ℕ) (d : ℕ) (hfr : fr < 10 ^ d) :
    parseUnsignedFloat (natDigitsChars i ++ '.' :: (padDigits d fr).map digitChar)
      = some ((i : ℚ) + (fr : ℚ) / 10 ^ d) := by
  have hdigits : ∀ x ∈ natDigitsChars i, x.isDigit = true := mem_natDigitsChars_isDigit i
  have hdot : ('.' : Char).isDigit = false := by decide
  unfold parseUnsignedFloat
  simp only [takeWhile_middle _ _ _ _ hdigits hdot, dropWhile_middle _ _ _ _ hdigits hdot]
  rw [if_pos]
  · rw [parseNat_natDigitsChars, parseNat_padDigits, Nat.mod_eq_of_lt hfr,
      List.length_map, padDigits_length]
  · refine ⟨trivial, ?_, Or.inl (natDigitsChars_ne_nil i)⟩
    intro x hx
    simp only [List.mem_map] at hx
    obtain ⟨v, hv, rfl⟩ := hx
    exact digitChar_isDigit (mem_padDigits_lt d _ v hv)

theorem parseFloat_fmtScaled (n : ℤ) (d : ℕ) :
    parseFloat (fmtScaled n d) = some ((n : ℚ) / 10 ^ d) := by
  have hsplit := Nat.div_add_mod n.natAbs (10 ^ d)
  have hmod : n.natAbs % 10 ^ d < 10 ^ d := Nat.mod_lt _ (by positivity)
  have hcast : ((n.natAbs : ℕ) : ℚ)
      = 10 ^ d * ((n.natAbs / 10 ^ d : ℕ) : ℚ) + ((n.natAbs % 10 ^ d : ℕ) : ℚ) := by
    exact_mod_cast hsplit.symm
  have hval : ((n.natAbs / 10 ^ d : ℕ) : ℚ) + ((n.natAbs % 10 ^ d : ℕ) : ℚ) / 10 ^ d
      = (n.natAbs : ℚ) / 10 ^ d := by
    rw [hcast]
    field_simp
    ring
  by_cases hn : n < 0
  · have habs : ((n.natAbs : ℕ) : ℚ) = -(n : ℚ) := by
      rw [Int.cast_natAbs]
      exact_mod_cast abs_of_neg hn
    unfold fmtScaled
    rw [if_pos hn]
    simp only [List.cons_append, List.nil_append]
    rw [parseFloat_neg_cons, parseUnsignedFloat_fmt _ _ _ hmod]
    simp only [Option.map_some']
    rw [hval, habs]
    ring_nf
  · have habs : ((n.natAbs : ℕ) : ℚ) = (n : ℚ) := by
      rw [Int.cast_natAbs]
      exact_mod_cast abs_of_nonneg (not_lt.mp hn)
    unfold fmtScaled
    rw [if_neg hn, List.nil_append]
    obtain ⟨c, t, hct⟩ : ∃ c t, natDigitsChars (n.natAbs / 10 ^ d) = c :: t := by
      cases h : natDigitsChars (n.natAbs / 10 ^ d) with
      | nil => exact absurd h (natDigitsChars_ne_nil _)
      | cons c t => exact ⟨c, t, rfl⟩
    have hcdig : c.isDigit = true := by
      have := mem_natDigitsChars_isDigit (n.natAbs / 10 ^ d) c
      rw [hct] at this
      exact this (List.mem_cons_self c t)
    rw [hct, List.cons_append, parseFloat_head_digit c _ hcdig, ← List.cons_append,
      ← hct, parseUnsignedFloat_fmt _ _ _ hmod, hval, habs]

/-- The value printed with `d` decimal places differs from the original by at
most half an ulp. -/
theorem round_scaled_close {α : Type} [LinearOrderedField α] [FloorRing α]
    (x : α) (d : ℕ) :
    |((round (x * 10 ^ d) : ℤ) : α) / 10 ^ d - x| ≤ 1 / (2 * 10 ^ d) := by
  have h10 : (0 : α) < 10 ^ d := by positivity
  have h := abs_sub_round (x * 10 ^ d)
  rw [abs_sub_comm] at h
  have heq : ((round (x * 10 ^ d) : ℤ) : α) / 10 ^ d - x
      = (((round (x * 10 ^ d) : ℤ) : α) - x * 10 ^ d) / 10 ^ d := by
    field_simp
    ring
  rw [heq, abs_div, abs_of_pos h10, div_le_iff₀ h10]
  calc |((round (x * 10 ^ d) : ℤ) : α) - x * 10 ^ d| ≤ 1 / 2 := h
    _ = 1 / (2 * 10 ^ d) * 10 ^ d := by field_simp

/-! ## Character classes of the formatted payload -/

theorem cls1_of_isDigit {c : Char} (h : c.isDigit = true) : cls1 c = true := by
  simp [cls1, h]

theorem cls2_of_isDigit {c : Char} (h : c.isDigit = true) : cls2 c = true := by
  simp [cls2, h]

theorem mem_fmtScaled_cls1 (n : ℤ) (d : ℕ) : ∀ c ∈ fmtScaled n d, cls1 c = true := by
  intro c hc
  unfold fmtScaled at hc
  simp only [List.mem_append, List.mem_cons] at hc
  rcases hc with (hc | hc) | hc | hc
  · split at hc
    · simp at hc
      subst hc
      decide
    · simp at hc
  · exact cls1_of_isDigit (mem_natDigitsChars_isDigit _ c hc)
  · subst hc
    decide
  · simp only [List.mem_map] at hc
    obtain ⟨v, hv, rfl⟩ := hc
    exact cls1_of_isDigit (digitChar_isDigit (mem_padDigits_lt d _ v hv))

theorem mem_fmtScaled_cls2 (n : ℤ) (d : ℕ) (hn : ¬ n < 0) :
    ∀ c ∈ fmtScaled n d, cls2 c = true := by
  intro c hc
  unfold fmtScaled at hc
  rw [if_neg hn, List.nil_append] at hc
  simp only [List.mem_append, List.mem_cons] at hc
  rcases hc with hc | hc | hc
  · exact cls2_of_isDigit (mem_natDigitsChars_isDigit _ c hc)
  · subst hc
    decide
  · simp only [List.mem_map] at hc
    obtain ⟨v, hv, rfl⟩ := hc
    exact cls2_of_isDigit (digitChar_isDigit (mem_padDigits_lt d _ v hv))

theorem fmtScaled_ne_nil (n : ℤ) (d : ℕ) : fmtScaled n d ≠ [] := by
  unfold fmtScaled
  intro h
  rcases List.append_eq_nil.mp h with ⟨h1, h2⟩
  rcases List.append_eq_nil.mp h1 with ⟨-, h3⟩
  exact natDigitsChars_ne_nil _ h3

theorem mem_tsChars_ne_L (t : Timestamp) : ∀ c ∈ tsChars t, c ≠ 'L' := by
  intro c hc
  have hdig : ∀ (w m : ℕ), c ∈ (padDigits w m).map digitChar → c ≠ 'L' := by
    intro w m hm
    simp only [List.mem_map] at hm
    obtain ⟨v, hv, rfl⟩ := hm
    exact digitChar_ne (mem_padDigits_lt w m v hv) (by decide)
  unfold tsChars at hc
  simp only [List.mem_append, List.mem_cons] at hc
  rcases hc with ((((hc | hc | hc) | hc | hc) | hc | hc) | hc | hc) | hc | hc
  all_goals first
    | (exact hdig _ _ hc)
    | (subst hc; decide)

/-! ## The receiver pattern on a formatted payload -/

theorem expectLit_append (pre rest : List Char) :
    expectLit pre (pre ++ rest) = some rest := by
  induction pre with
  | nil => rfl
  | cons p ps ih => simp [expectLit, ih]

theorem grabClass_middle (p : Char → Bool) (g : List Char) (c : Char) (rest : List Char)
    (hg : ∀ x ∈ g, p x = true) (hne : g ≠ []) (hc : p c = false) :
    grabClass p (g ++ c :: rest) = some (g, c :: rest) := by
  unfold grabClass
  rw [takeWhile_middle _ _ _ _ hg hc, dropWhile_middle _ _ _ _ hg hc, if_neg hne]

theorem matchPayloadAt_payload (g1 g2 g3 rest : List Char)
    (h1 : ∀ x ∈ g1, cls1 x = true) (h1n : g1 ≠ [])
    (h2 : ∀ x ∈ g2, cls1 x = true) (h2n : g2 ≠ [])
    (h3 : ∀ x ∈ g3, cls2 x = true) (h3n : g3 ≠ []) :
    matchPayloadAt (['L', 'A', 'T', ':'] ++ g1
      ++ ' ' :: (['L', 'O', 'N', ':'] ++ g2
      ++ ' ' :: (['S', 'P', 'D', ':'] ++ g3 ++ 'k' :: 'm' :: '/' :: 'h' :: rest)))
      = some (g1, g2, g3) := by
  have e1 : expectLit ['L', 'A', 'T', ':'] (['L', 'A', 'T', ':'] ++ g1
      ++ ' ' :: (['L', 'O', 'N', ':'] ++ g2
      ++ ' ' :: (['S', 'P', 'D', ':'] ++ g3 ++ 'k' :: 'm' :: '/' :: 'h' :: rest)))
      = some (g1 ++ ' ' :: (['L', 'O', 'N', ':'] ++ g2
      ++ ' ' :: (['S', 'P', 'D', ':'] ++ g3 ++ 'k' :: 'm' :: '/' :: 'h' :: rest))) :=
    expectLit_append _ _
  have e2 : grabClass cls1 (g1 ++ ' ' :: (['L', 'O', 'N', ':'] ++ g2
      ++ ' ' :: (['S', 'P', 'D', ':'] ++ g3 ++ 'k' :: 'm' :: '/' :: 'h' :: rest)))
      = some (g1, ' ' :: (['L', 'O', 'N', ':'] ++ g2
      ++ ' ' :: (['S', 'P', 'D', ':'] ++ g3 ++ 'k' :: 'm' :: '/' :: 'h' :: rest))) :=
    grabClass_middle cls1 g1 ' ' _ h1 h1n (by decide)
  have e3 : grabClass isSpaceChar (' ' :: (['L', 'O', 'N', ':'] ++ g2
      ++ ' ' :: (['S', 'P', 'D', ':'] ++ g3 ++ 'k' :: 'm' :: '/' :: 'h' :: rest)))
      = some ([' '], 'L' :: (['O', 'N', ':'] ++ g2
      ++ ' ' :: (['S', 'P', 'D', ':'] ++ g3 ++ 'k' :: 'm' :: '/' :: 'h' :: rest))) :=
    grabClass_middle isSpaceChar [' '] 'L' _ (by decide) (by decide) (by decide)
  have e4 : expectLit ['L', 'O', 'N', ':'] ('L' :: (['O', 'N', ':'] ++ g2
      ++ ' ' :: (['S', 'P', 'D', ':'] ++ g3 ++ 'k' :: 'm' :: '/' :: 'h' :: rest)))
      = some (g2 ++ ' ' :: (['S', 'P', 'D', ':'] ++ g3 ++ 'k' :: 'm' :: '/' :: 'h' :: rest)) :=
    expectLit_append ['L', 'O', 'N', ':'] _
  have e5 : grabClass cls1 (g2 ++ ' ' :: (['S', 'P', 'D', ':'] ++ g3
      ++ 'k' :: 'm' :: '/' :: 'h' :: rest))
      = some (g2, ' ' :: (['S', 'P', 'D', ':'] ++ g3 ++ 'k' :: 'm' :: '/' :: 'h' :: rest)) :=
    grabClass_middle cls1 g2 ' ' _ h2 h2n (by decide)
  have e6 : grabClass isSpaceChar (' ' :: (['S', 'P', 'D', ':'] ++ g3
      ++ 'k' :: 'm' :: '/' :: 'h' :: rest))
      = some ([' '], 'S' :: (['P', 'D', ':'] ++ g3 ++ 'k' :: 'm' :: '/' :: 'h' :: rest)) :=
    grabClass_middle isSpaceChar [' '] 'S' _ (by decide) (by decide) (by decide)
  have e7 : expectLit ['S', 'P', 'D', ':'] ('S' :: (['P', 'D', ':'] ++ g3
      ++ 'k' :: 'm' :: '/' :: 'h' :: rest))
      = some (g3 ++ 'k' :: 'm' :: '/' :: 'h' :: rest) :=
    expectLit_append ['S', 'P', 'D', ':'] _
  have e8 : grabClass cls2 (g3 ++ 'k' :: 'm' :: '/' :: 'h' :: rest)
      = some (g3, 'k' :: 'm' :: '/' :: 'h' :: rest) :=
    grabClass_middle cls2 g3 'k' _ h3 h3n (by decide)
  have e9 : expectLit ['k', 'm', '/', 'h'] ('k' :: 'm' :: '/' :: 'h' :: rest)
      = some rest :=
    expectLit_append ['k', 'm', '/', 'h'] rest
  unfold matchPayloadAt
  simp only [e1, e2, e3, e4, e5, e6, e7, e8, e9]

theorem searchPayload_skip (l cs : List Char) (hl : ∀ c ∈ l, c ≠ 'L') :
    searchPayload (l ++ cs) = searchPayload cs := by
  induction l with
  | nil => rfl
  | cons a t ih =>
    have ha : a ≠ 'L' := hl a (List.mem_cons_self a t)
    have hm : matchPayloadAt (a :: (t ++ cs)) = none := by
      have he : expectLit ['L', 'A', 'T', ':'] (a :: (t ++ cs)) = none := by
        unfold expectLit
        rw [if_neg ha]
      unfold matchPayloadAt
      rw [he]
    have hstep : searchPayload ((a :: t) ++ cs) = searchPayload (t ++ cs) := by
      show (match matchPayloadAt (a :: (t ++ cs)) with
            | some g => some g
            | none => searchPayload (t ++ cs)) = searchPayload (t ++ cs)
      rw [hm]
    rw [hstep]
    exact ih (fun c hc => hl c (List.mem_cons_of_mem a hc))

theorem searchPayload_cons_of_match (c : Char) (t : List Char)
    (g : List Char × List Char × List Char) (h : matchPayloadAt (c :: t) = some g) :
    searchPayload (c :: t) = some g := by
  simp [searchPayload, h]

/-! ## Haversine facts -/

theorem atan2_zero_one : atan2 0 1 = 0 := by
  unfold atan2
  rw [if_pos (by norm_num : (0 : ℝ) < 1)]
  norm_num [Real.arctan_zero]

theorem haversine_self (la lo : ℝ) : haversine_m la lo la lo = 0 := by
  unfold haversine_m radians
  simp only [sub_self, zero_mul, zero_div, Real.sin_zero, zero_pow, ne_eq,
    OfNat.ofNat_ne_zero, not_false_eq_true, mul_zero, add_zero, zero_add,
    Real.sqrt_zero, sub_zero, Real.sqrt_one]
  rw [atan2_zero_one]
  ring

/-- On a meridian (same longitude), the haversine distance between latitudes
`l1 ≤ l2 < l1 + 180` is exactly the arc `R * radians (l2 - l1)`. -/
theorem haversine_meridian (l1 l2 lo : ℝ) (h0 : 0 ≤ l2 - l1) (h1 : l2 - l1 < 180) :
    haversine_m l1 lo l2 lo = 6371000 * ((l2 - l1) * Real.pi / 180) := by
  have hpi := Real.pi_pos
  set θ : ℝ := (l2 - l1) * Real.pi / 180 / 2 with hθ
  have hθ0 : 0 ≤ θ := by positivity
  have hθ2 : θ < Real.pi / 2 := by
    rw [hθ, div_lt_div_iff (by norm_num : (0:ℝ) < 2) (by norm_num : (0:ℝ) < 2),
      div_mul_eq_mul_div, div_lt_iff (by norm_num : (0:ℝ) < 180)]
    nlinarith
  have hθpi : θ ≤ Real.pi := by linarith
  have hsinnn : 0 ≤ Real.sin θ := Real.sin_nonneg_of_nonneg_of_le_pi hθ0 hθpi
  have hcospos : 0 < Real.cos θ := Real.cos_pos_of_mem_Ioo ⟨by linarith, hθ2⟩
  have hs1 : Real.sqrt (Real.sin θ ^ 2) = Real.sin θ := by
    rw [Real.sqrt_sq_eq_abs, abs_of_nonneg hsinnn]
  have hs2 : Real.sqrt (1 - Real.sin θ ^ 2) = Real.cos θ := by
    rw [show (1 : ℝ) - Real.sin θ ^ 2 = Real.cos θ ^ 2 by
        nlinarith [Real.sin_sq_add_cos_sq θ],
      Real.sqrt_sq_eq_abs, abs_of_pos hcospos]
  have hat : atan2 (Real.sin θ) (Real.cos θ) = θ := by
    unfold atan2
    rw [if_pos hcospos, ← Real.tan_eq_sin_div_cos,
      Real.arctan_tan (by linarith) hθ2]
  unfold haversine_m radians
  simp only [sub_self, zero_mul, zero_div, Real.sin_zero, zero_pow, ne_eq,
    OfNat.ofNat_ne_zero, not_false_eq_true, mul_zero, add_zero]
  rw [show (l2 - l1) * Real.pi / 180 / 2 = θ from rfl]
  rw [hs1, hs2, hat, hθ]
  ring

/-! ## Unfolding the relay-loop body -/

theorem step_skip (s : LoopState) (w : ℚ) (t : Timestamp) :
    step s ⟨.skip, w, t⟩ = (s, none) := rfl

theorem step_parse_error (s : LoopState) (e : ParseError) (w : ℚ) (t : Timestamp) :
    step s ⟨.nmea (.error e), w, t⟩ = (s, none) := rfl

theorem step_invalid (s : LoopState) (m : NmeaMsg) (w : ℚ) (t : Timestamp)
    (h : (truthy m.latitude && truthy m.longitude) = false) :
    step s ⟨.nmea (.ok m), w, t⟩ = ({ s with lastFixValid := false }, none) := by
  unfold step
  simp only [h]
  rfl

theorem step_valid (s : LoopState) (m : NmeaMsg) (w : ℚ) (t : Timestamp)
    (h : (truthy m.latitude && truthy m.longitude) = true) :
    step s ⟨.nmea (.ok m), w, t⟩
      = (⟨some (m.latitude.getD 0), some (m.longitude.getD 0),
            some (currentTimeOf m w), true⟩,
         some ⟨t, m.latitude.getD 0, m.longitude.getD 0,
            derivedSpeed s (m.latitude.getD 0) (m.longitude.getD 0)
              (currentTimeOf m w)⟩) := by
  unfold step
  simp only [h]
  rfl

theorem derivedSpeed_of_prior (la lo lt lat lon ct : ℚ) :
    derivedSpeed ⟨some la, some lo, some lt, true⟩ lat lon ct
      = (if 0 < ct - lt then
          (if (0.5 : ℝ) < haversine_m (la : ℝ) (lo : ℝ) (lat : ℝ) (lon : ℝ) then
            haversine_m (la : ℝ) (lo : ℝ) (lat : ℝ) (lon : ℝ) / ((ct - lt : ℚ) : ℝ) * 3.6
          else 0)
        else 0) := rfl

theorem derivedSpeed_no_prior (lat lon ct : ℚ) :
    derivedSpeed initState lat lon ct = 0 := rfl

theorem runLoop_nil (s : LoopState) : runLoop s [] = (s, []) := rfl

theorem runLoop_cons_none (s : LoopState) (ev : LineEvent) (rest : List LineEvent)
    (s' : LoopState) (h : step s ev = (s', none)) :
    runLoop s (ev :: rest) = runLoop s' rest := by
  conv_lhs => unfold runLoop
  rw [h]

theorem runLoop_cons_some (s : LoopState) (ev : LineEvent) (rest : List LineEvent)
    (s' : LoopState) (tel : Telemetry) (h : step s ev = (s', some tel)) :
    runLoop s (ev :: rest) = ((runLoop s' rest).1, tel :: (runLoop s' rest).2) := by
  conv_lhs => unfold runLoop
  rw [h]

/-- Jitter suppression in `gps1.py`: when the displacement from the prior fix
is at most the code's 0.5 m guard, the derived speed stays `0.0`, while the
new fix's coordinates (not the prior ones) are stored and reported. -/
theorem step_jitter_zero (la lo lt lat lon w : ℚ) (t : Timestamp) (m : NmeaMsg)
    (hla : m.latitude = some lat) (hlo : m.longitude = some lon)
    (h1 : lat ≠ 0) (h2 : lon ≠ 0)
    (hjit : haversine_m (la : ℝ) (lo : ℝ) (lat : ℝ) (lon : ℝ) ≤ 0.5) :
    step ⟨some la, some lo, some lt, true⟩ ⟨.nmea (.ok m), w, t⟩
      = (⟨some lat, some lon, some (currentTimeOf m w), true⟩,
         some ⟨t, lat, lon, 0⟩) := by
  have hv : (truthy m.latitude && truthy m.longitude) = true := by
    rw [hla, hlo]
    simp [truthy, h1, h2]
  have hspeed : derivedSpeed ⟨some la, some lo, some lt, true⟩ lat lon
      (currentTimeOf m w) = 0 := by
    rw [derivedSpeed_of_prior]
    have hnot : ¬ ((0.5 : ℝ) < haversine_m (la : ℝ) (lo : ℝ) (lat : ℝ) (lon : ℝ)) :=
      not_lt.mpr hjit
    split_ifs <;> simp_all
  rw [step_valid _ _ _ _ hv, hla, hlo]
  simp only [Option.getD_some]
  rw [hspeed]

/-- The first accepted fix: no valid prior exists, so the reported speed is
the initial `speed_kmh = 0.0`. -/
theorem step_first_fix (lat lon w : ℚ) (h1 : lat ≠ 0) (h2 : lon ≠ 0) :
    step initState (mkFixEv lat lon w)
      = (⟨some lat, some lon, some w, true⟩,
         some ⟨⟨2025, 9, 19, 12, 0, 0⟩, lat, lon, 0⟩) := by
  rw [show mkFixEv lat lon w
      = ⟨.nmea (.ok ⟨some lat, some lon, none, none⟩), w, ⟨2025, 9, 19, 12, 0, 0⟩⟩ from rfl]
  rw [step_valid _ _ _ _ (by simp [truthy, h1, h2])]
  simp only [Option.getD_some]
  rw [show currentTimeOf ⟨some lat, some lon, none, none⟩ w = w from rfl,
    derivedSpeed_no_prior]

/-- Decomposition of a fixed-point rendering into integer part, dot, and an
exactly-`d`-digit fractional part. -/
theorem fmtScaled_decompose (n : ℤ) (d : ℕ) :
    ∃ a b : List Char, fmtScaled n d = a ++ '.' :: b
      ∧ b.length = d ∧ (∀ c ∈ b, c.isDigit = true) ∧ a ≠ [] := by
  refine ⟨(if n < 0 then ['-'] else []) ++ natDigitsChars (n.natAbs / 10 ^ d),
    (padDigits d (n.natAbs % 10 ^ d)).map digitChar, ?_, ?_, ?_, ?_⟩
  · unfold fmtScaled
    rw [List.append_assoc]
  · rw [List.length_map, padDigits_length]
  · intro c hc
    simp only [List.mem_map] at hc
    obtain ⟨v, hv, rfl⟩ := hc
    exact digitChar_isDigit (mem_padDigits_lt d _ v hv)
  · intro h
    rcases List.append_eq_nil.mp h with ⟨-, h2⟩
    exact natDigitsChars_ne_nil _ h2

/-- The rendered payload never equals the `NO_FIX` sentinel: it starts with a
decimal digit of the year. -/
theorem renderTelemetry_ne_noFix (tel : Telemetry) : renderTelemetry tel ≠ "NO_FIX" := by
  obtain ⟨v, vs, hv⟩ : ∃ v vs, padDigits 4 tel.ts.year = v :: vs := by
    cases h : padDigits 4 tel.ts.year with
    | nil =>
      have := padDigits_length 4 tel.ts.year
      rw [h] at this
      simp at this
    | cons v vs => exact ⟨v, vs, rfl⟩
  have hvlt : v < 10 :=
    mem_padDigits_lt 4 tel.ts.year v (by rw [hv]; exact List.mem_cons_self v vs)
  intro h
  have hdata : (renderTelemetry tel).data = ("NO_FIX" : String).data := by rw [h]
  unfold renderTelemetry tsChars at hdata
  rw [hv, show ("NO_FIX" : String).data = ['N', 'O', '_', 'F', 'I', 'X'] from rfl]
    at hdata
  simp only [List.map_cons, List.cons_append, List.append_assoc] at hdata
  have hhead : digitChar v = 'N' := (List.cons.injEq _ _ _ _ ▸ hdata).1
  exact digitChar_ne hvlt (by decide : ('N').isDigit = false) hhead

/-- A cycle that does not carry a valid fix emits nothing at all. -/
theorem step_none_of_no_fix (s : LoopState) (ev : LineEvent)
    (h : evHasValidFix ev = false) : (step s ev).2 = none := by
  obtain ⟨c, w, t⟩ := ev
  cases c with
  | skip => rfl
  | nmea r =>
    cases r with
    | error e => rfl
    | ok m =>
      rw [step_invalid s m w t h]

theorem round_nonneg {α : Type} [LinearOrderedField α] [FloorRing α] {x : α}
    (hx : 0 ≤ x) : 0 ≤ round x := by
  rw [round_eq]
  exact Int.floor_nonneg.mpr (by linarith)

theorem takeWhile_all (p : Char → Bool) (l : List Char) (h : ∀ x ∈ l, p x = true) :
    l.takeWhile p = l := by
  induction l with
  | nil => rfl
  | cons a t ih =>
    simp [List.takeWhile_cons, h a (List.mem_cons_self a t),
      ih (fun x hx => h x (List.mem_cons_of_mem a hx))]

theorem dropWhile_all (p : Char → Bool) (l : List Char) (h : ∀ x ∈ l, p x = true) :
    l.dropWhile p = [] := by
  induction l with
  | nil => rfl
  | cons a t ih =>
    simp [List.dropWhile_cons, h a (List.mem_cons_self a t),
      ih (fun x hx => h x (List.mem_cons_of_mem a hx))]

theorem parseUnsignedFloat_intFrac (i f : List Char)
    (hi : ∀ x ∈ i, x.isDigit = true) (hf : ∀ x ∈ f, x.isDigit = true) (hne : i ≠ []) :
    parseUnsignedFloat (i ++ '.' :: f)
      = some ((parseNat i : ℚ) + (parseNat f : ℚ) / 10 ^ f.length) := by
  unfold parseUnsignedFloat
  simp only [takeWhile_middle (fun c => c.isDigit) i '.' f hi (by decide),
    dropWhile_middle (fun c => c.isDigit) i '.' f hi (by decide)]
  rw [if_pos ⟨by simp, hf, Or.inl hne⟩]

theorem parseUnsignedFloat_digitsOnly (i : List Char)
    (hi : ∀ x ∈ i, x.isDigit = true) (hne : i ≠ []) :
    parseUnsignedFloat i = some (parseNat i : ℚ) := by
  unfold parseUnsignedFloat
  simp only [takeWhile_all _ _ hi, dropWhile_all _ _ hi]
  rw [if_neg hne]

theorem parseFloat_intFrac (c : Char) (i f : List Char) (hc : c.isDigit = true)
    (hi : ∀ x ∈ i, x.isDigit = true) (hf : ∀ x ∈ f, x.isDigit = true) :
    parseFloat ((c :: i) ++ '.' :: f)
      = some ((parseNat (c :: i) : ℚ) + (parseNat f : ℚ) / 10 ^ f.length) := by
  have hall : ∀ x ∈ c :: i, x.isDigit = true := by
    intro x hx
    rcases List.mem_cons.mp hx with rfl | hx
    · exact hc
    · exact hi x hx
  calc parseFloat ((c :: i) ++ '.' :: f)
      = parseUnsignedFloat (c :: (i ++ '.' :: f)) := parseFloat_head_digit c _ hc
    _ = some ((parseNat (c :: i) : ℚ) + (parseNat f : ℚ) / 10 ^ f.length) :=
        parseUnsignedFloat_intFrac (c :: i) f hall hf (by simp)

theorem parseFloat_digitsOnly (c : Char) (i : List Char) (hc : c.isDigit = true)
    (hi : ∀ x ∈ i, x.isDigit = true) :
    parseFloat (c :: i) = some (parseNat (c :: i) : ℚ) := by
  have hall : ∀ x ∈ c :: i, x.isDigit = true := by
    intro x hx
    rcases List.mem_cons.mp hx with rfl | hx
    · exact hc
    · exact hi x hx
  calc parseFloat (c :: i) = parseUnsignedFloat (c :: i) := parseFloat_head_digit c _ hc
    _ = some (parseNat (c :: i) : ℚ) := parseUnsignedFloat_digitsOnly (c :: i) hall (by simp)

/-! # Claims -/

/-- C6: at startup the SX126x/SPI driver is tried first when its dependency
imported, otherwise the AT-command UART backend; when neither is available
the process exits with code 1 (non-zero) and the fatal message — the relay
never proceeds with no transport. -/
theorem backend_selection_spec (e : StartEnv) :
    mainStartup e
      = (if e.hasSX126x && e.sxBeginOk then .ok .spiDriver
         else if e.atPortExists && e.atOpenOk then .ok .atModem
         else .error (1, fatalNoLoraMsg)) := by
  obtain ⟨a, b, c, d⟩ := e
  cases a <;> cases b <;> cases c <;> cases d <;> rfl

/-- C9: a sentence on which `pynmea2.parse` raises `ParseError` is confined
to that iteration: the handler catches it, the loop state is unchanged,
nothing is sent, and the relay loop continues with the remaining events
exactly as if the bad sentence had not arrived (no unhandled fault — `step`
and `runLoop` are total). -/
theorem parse_error_local_spec (s : LoopState) (e : ParseError) (w : ℚ)
    (t : Timestamp) (rest : List LineEvent) :
    step s ⟨.nmea (.error e), w, t⟩ = (s, none)
      ∧ runLoop s (⟨.nmea (.error e), w, t⟩ :: rest) = runLoop s rest :=
  ⟨rfl, runLoop_cons_none _ _ _ _ rfl⟩

/-- C10: a successfully parsed sentence whose latitude or longitude is
exactly 0 is treated like a missing coordinate by the Python truthiness test
`msg.latitude and msg.longitude`: the fix is not sent, `last_lat`/`last_lon`/
`last_time` are not updated, and `last_fix_valid` is reset to `False`. -/
theorem zero_coordinate_drop_spec (s : LoopState) (m : NmeaMsg) (w : ℚ)
    (t : Timestamp) (h : m.latitude = some 0 ∨ m.longitude = some 0) :
    step s ⟨.nmea (.ok m), w, t⟩ = ({ s with lastFixValid := false }, none) := by
  apply step_invalid
  rcases h with h | h <;> rw [h] <;> simp [truthy]

/-- Witness for C10 at a concrete equator fix (latitude exactly 0). -/
theorem zero_coordinate_drop_witness :
    ((⟨some 0, some 50, none, none⟩ : NmeaMsg).latitude = some 0
      ∨ (⟨some 0, some 50, none, none⟩ : NmeaMsg).longitude = some 0)
    ∧ step initState ⟨.nmea (.ok ⟨some 0, some 50, none, none⟩), 5, ⟨2025, 9, 19, 12, 0, 0⟩⟩
        = ({ initState with lastFixValid := false }, none) :=
  ⟨Or.inl rfl,
   zero_coordinate_drop_spec initState ⟨some 0, some 50, none, none⟩ 5
     ⟨2025, 9, 19, 12, 0, 0⟩ (Or.inl rfl)⟩

/-- C3 counterexample: an RMC-style message carrying a 10-knot ground speed
is relayed with speed 0 (displacement-derived, no prior fix), not with
`10 * 1.852 = 18.52` km/h: the sentence-reported ground speed is never used
by `gps1.py`. -/
theorem ground_speed_counterexample :
    ((runLoop initState
        [⟨.nmea (.ok ⟨some 20, some 30, none, some 10⟩), 5, ⟨2025, 9, 19, 12, 0, 0⟩⟩]).2.map
      (fun tel => tel.speedKmh)) = [0]
    ∧ (10 * 1.852 : ℝ) ≠ 0 := by
  constructor
  · have h := step_valid initState ⟨some 20, some 30, none, some 10⟩ 5
      ⟨2025, 9, 19, 12, 0, 0⟩ (by decide)
    rw [runLoop_cons_some _ _ _ _ _ h, runLoop_nil]
    simp [derivedSpeed_no_prior]
  · norm_num

/-- C3 (amended): the relay's behaviour is entirely independent of the
sentence-reported ground speed — `gps1.py` never reads it, and the reported
speed is always the displacement-derived one. -/
theorem ground_speed_ignored (s : LoopState) (la lo gt gs gs' : Option ℚ)
    (w : ℚ) (t : Timestamp) :
    step s ⟨.nmea (.ok ⟨la, lo, gt, gs⟩), w, t⟩
      = step s ⟨.nmea (.ok ⟨la, lo, gt, gs'⟩), w, t⟩ := rfl

/-- C7 (modelled from the spec; no watchdog exists in the repository's code):
a REINIT happens exactly when the send failed and the time since the last
successful send exceeds the stall threshold; it reacquires a transport
through the original backend-selection policy and restarts the stall episode,
and a further failing cycle within the threshold does not REINIT again; the
loop never terminates on a stall (a next state always exists). -/
theorem watchdog_reinit_spec (cfg : RelayConfig) (env : StartEnv)
    (s : RelayState) (now : ℚ) (sendOk : Bool) :
    ((relayCycle cfg env s now sendOk).2 = true
      ↔ sendOk = false ∧ cfg.stallThreshold < now - s.lastSuccessTime)
    ∧ ((relayCycle cfg env s now sendOk).2 = true →
        (relayCycle cfg env s now sendOk).1
          = ⟨now, (mainStartup env).toOption, s.generation + 1⟩)
    ∧ (∀ (now' : ℚ) (sendOk' : Bool),
        (relayCycle cfg env s now sendOk).2 = true →
        now' - now ≤ cfg.stallThreshold →
        (relayCycle cfg env (relayCycle cfg env s now sendOk).1 now' sendOk').2
          = false) := by
  refine ⟨?_, ?_, ?_⟩
  · cases sendOk with
    | true => simp [relayCycle]
    | false =>
      by_cases hth : cfg.stallThreshold < now - s.lastSuccessTime
      · simp [relayCycle, hth]
      · simp [relayCycle, hth]
  · intro h
    cases sendOk with
    | true => simp [relayCycle] at h
    | false =>
      by_cases hth : cfg.stallThreshold < now - s.lastSuccessTime
      · simp [relayCycle, hth]
      · simp [relayCycle, hth] at h
  · intro now' sendOk' h hnear
    cases sendOk with
    | true => simp [relayCycle] at h
    | false =>
      by_cases hth : cfg.stallThreshold < now - s.lastSuccessTime
      · cases sendOk' with
        | true => simp [relayCycle, hth]
        | false => simp [relayCycle, hth, not_lt.mpr hnear]
      · simp [relayCycle, hth] at h

/-- C1 (amended): when two consecutive valid fixes are within the code's
jitter threshold — which is 0.5 m, not the claimed 1.0 m — the derived speed
is 0, but the reported and stored position is the NEW fix's coordinates; the
coordinates are never snapped back to the prior fix, and no ground-speed
override exists. -/
theorem jitter_speed_zero (la lo lt lat lon w : ℚ) (t : Timestamp) (m : NmeaMsg)
    (hla : m.latitude = some lat) (hlo : m.longitude = some lon)
    (h1 : lat ≠ 0) (h2 : lon ≠ 0)
    (hjit : haversine_m (la : ℝ) (lo : ℝ) (lat : ℝ) (lon : ℝ) ≤ 0.5) :
    step ⟨some la, some lo, some lt, true⟩ ⟨.nmea (.ok m), w, t⟩
      = (⟨some lat, some lon, some (currentTimeOf m w), true⟩,
         some ⟨t, lat, lon, 0⟩) :=
  step_jitter_zero la lo lt lat lon w t m hla hlo h1 h2 hjit

/-- Witness for C1 at identical consecutive coordinates (distance 0). -/
theorem jitter_speed_zero_witness :
    haversine_m ((1 : ℚ) : ℝ) ((1 : ℚ) : ℝ) ((1 : ℚ) : ℝ) ((1 : ℚ) : ℝ) ≤ 0.5
    ∧ step ⟨some 1, some 1, some 0, true⟩
        ⟨.nmea (.ok ⟨some 1, some 1, none, none⟩), 5, ⟨2025, 9, 19, 12, 0, 0⟩⟩
      = (⟨some 1, some 1, some 5, true⟩,
         some ⟨⟨2025, 9, 19, 12, 0, 0⟩, 1, 1, 0⟩) := by
  have hj : haversine_m ((1 : ℚ) : ℝ) ((1 : ℚ) : ℝ) ((1 : ℚ) : ℝ) ((1 : ℚ) : ℝ) ≤ 0.5 := by
    rw [haversine_self]
    norm_num
  refine ⟨hj, ?_⟩
  have h := jitter_speed_zero 1 1 0 1 1 5 ⟨2025, 9, 19, 12, 0, 0⟩
    ⟨some 1, some 1, none, none⟩ rfl rfl (by norm_num) (by norm_num) hj
  exact h

/-- C1 counterexample: two consecutive valid fixes 0.11 m apart (well below
the claimed 1.0 m threshold).  The relay reports the second fix at the NEW
coordinates `(10 + 1e-6, 20)`, not at the prior fix's `(10, 20)`: the
claimed snap-to-prior never happens in `gps1.py`. -/
theorem jitter_snap_counterexample :
    haversine_m ((10 : ℚ) : ℝ) ((20 : ℚ) : ℝ)
        ((10 + 1/1000000 : ℚ) : ℝ) ((20 : ℚ) : ℝ) < 1
    ∧ ((runLoop initState [mkFixEv 10 20 0, mkFixEv (10 + 1/1000000) 20 1]).2.map
        (fun tel => (tel.lat, tel.lon)))
      = [((10 : ℚ), (20 : ℚ)), ((10 + 1/1000000 : ℚ), (20 : ℚ))]
    ∧ (10 + 1/1000000 : ℚ) ≠ 10 := by
  have hd : haversine_m ((10 : ℚ) : ℝ) ((20 : ℚ) : ℝ)
      ((10 + 1/1000000 : ℚ) : ℝ) ((20 : ℚ) : ℝ)
      = 6371000 * (((10 + 1/1000000 : ℝ) - 10) * Real.pi / 180) := by
    rw [show ((10 : ℚ) : ℝ) = 10 by norm_num, show ((20 : ℚ) : ℝ) = 20 by norm_num,
      show ((10 + 1/1000000 : ℚ) : ℝ) = 10 + 1/1000000 by push_cast; norm_num]
    exact haversine_meridian 10 (10 + 1/1000000) 20 (by norm_num) (by norm_num)
  have hpi := Real.pi_lt_315
  have hpi0 := Real.pi_pos
  have hlt05 : haversine_m ((10 : ℚ) : ℝ) ((20 : ℚ) : ℝ)
      ((10 + 1/1000000 : ℚ) : ℝ) ((20 : ℚ) : ℝ) ≤ 0.5 := by
    rw [hd]
    nlinarith
  refine ⟨by rw [hd]; nlinarith, ?_, by norm_num⟩
  have hs1 := step_first_fix 10 20 0 (by norm_num) (by norm_num)
  have hs2 : step ⟨some 10, some 20, some 0, true⟩ (mkFixEv (10 + 1/1000000) 20 1)
      = (⟨some (10 + 1/1000000), some 20, some 1, true⟩,
         some ⟨⟨2025, 9, 19, 12, 0, 0⟩, 10 + 1/1000000, 20, 0⟩) :=
    step_jitter_zero 10 20 0 (10 + 1/1000000) 20 1 ⟨2025, 9, 19, 12, 0, 0⟩
      ⟨some (10 + 1/1000000), some 20, none, none⟩ rfl rfl (by norm_num) (by norm_num)
      hlt05
  rw [runLoop_cons_some _ _ _ _ _ hs1, runLoop_cons_some _ _ _ _ _ hs2, runLoop_nil]
  rfl

/-- C4 (amended): the transmitted telemetry carries exactly the derived
speed; the derived speed equals `dist_m / dt * 3.6` when `dt > 0` and
`dist_m > 0.5`; when `dt ≤ 0` no division occurs and the reported speed is 0
(not the previous value); the reported speed is never negative. -/
theorem derived_speed_spec (la lo lt lat lon w : ℚ) (t : Timestamp) (m : NmeaMsg)
    (hla : m.latitude = some lat) (hlo : m.longitude = some lon)
    (h1 : lat ≠ 0) (h2 : lon ≠ 0) :
    step ⟨some la, some lo, some lt, true⟩ ⟨.nmea (.ok m), w, t⟩
      = (⟨some lat, some lon, some (currentTimeOf m w), true⟩,
         some ⟨t, lat, lon,
           derivedSpeed ⟨some la, some lo, some lt, true⟩ lat lon (currentTimeOf m w)⟩)
    ∧ (currentTimeOf m w - lt ≤ 0 →
        derivedSpeed ⟨some la, some lo, some lt, true⟩ lat lon (currentTimeOf m w) = 0)
    ∧ (0 < currentTimeOf m w - lt →
        (0.5 : ℝ) < haversine_m (la : ℝ) (lo : ℝ) (lat : ℝ) (lon : ℝ) →
        derivedSpeed ⟨some la, some lo, some lt, true⟩ lat lon (currentTimeOf m w)
          = haversine_m (la : ℝ) (lo : ℝ) (lat : ℝ) (lon : ℝ)
            / ((currentTimeOf m w - lt : ℚ) : ℝ) * 3.6)
    ∧ 0 ≤ derivedSpeed ⟨some la, some lo, some lt, true⟩ lat lon (currentTimeOf m w) := by
  have hv : (truthy m.latitude && truthy m.longitude) = true := by
    rw [hla, hlo]
    simp [truthy, h1, h2]
  refine ⟨?_, ?_, ?_, ?_⟩
  · rw [step_valid _ _ _ _ hv, hla, hlo]
    simp only [Option.getD_some]
  · intro hdt
    rw [derivedSpeed_of_prior, if_neg (not_lt.mpr hdt)]
  · intro hdt hdist
    rw [derivedSpeed_of_prior, if_pos hdt, if_pos hdist]
  · rw [derivedSpeed_of_prior]
    split_ifs with h3 h4
    · have hd0 : (0 : ℝ) < ((currentTimeOf m w - lt : ℚ) : ℝ) := by exact_mod_cast h3
      have hdp : (0 : ℝ) < haversine_m (la : ℝ) (lo : ℝ) (lat : ℝ) (lon : ℝ) :=
        lt_trans (by norm_num) h4
      have := mul_pos (div_pos hdp hd0) (by norm_num : (0 : ℝ) < 3.6)
      linarith
    · exact le_refl 0
    · exact le_refl 0

/-- Witness for C4: same fix fed twice with zero elapsed time reports
speed 0. -/
theorem derived_speed_spec_witness :
    ((⟨some 3, some 4, none, none⟩ : NmeaMsg).latitude = some 3)
    ∧ ((3 : ℚ) ≠ 0)
    ∧ derivedSpeed ⟨some 1, some 2, some 5, true⟩ 3 4
        (currentTimeOf ⟨some 3, some 4, none, none⟩ 5) = 0 := by
  refine ⟨rfl, by norm_num, ?_⟩
  have h := derived_speed_spec 1 2 5 3 4 5 ⟨2025, 9, 19, 12, 0, 0⟩
    ⟨some 3, some 4, none, none⟩ rfl rfl (by norm_num) (by norm_num)
  exact h.2.1 (by norm_num [currentTimeOf])

/-- C4 counterexample: after a cycle reporting a nonzero speed (two fixes 18°
of latitude apart in one hour, speed `6371/10 * π ≈ 2001.5` km/h), feeding
the same fix again with zero elapsed time reports speed 0 — the speed is NOT
held at the previous smoothed value as claimed. -/
theorem speed_hold_counterexample :
    ((runLoop initState
        [mkFixEv 10 20 0, mkFixEv 28 20 3600, mkFixEv 28 20 3600]).2.map
      (fun tel => tel.speedKmh))
      = [0, 6371 / 10 * Real.pi, 0]
    ∧ (6371 / 10 * Real.pi : ℝ) ≠ 0 := by
  have hdist : haversine_m ((10 : ℚ) : ℝ) ((20 : ℚ) : ℝ) ((28 : ℚ) : ℝ) ((20 : ℚ) : ℝ)
      = 6371000 * (((28 : ℝ) - 10) * Real.pi / 180) := by
    rw [show ((10 : ℚ) : ℝ) = 10 by norm_num, show ((20 : ℚ) : ℝ) = 20 by norm_num,
      show ((28 : ℚ) : ℝ) = 28 by norm_num]
    exact haversine_meridian 10 28 20 (by norm_num) (by norm_num)
  have hs1 := step_first_fix 10 20 0 (by norm_num) (by norm_num)
  have hpos : (0.5 : ℝ) < haversine_m ((10 : ℚ) : ℝ) ((20 : ℚ) : ℝ)
      ((28 : ℚ) : ℝ) ((20 : ℚ) : ℝ) := by
    rw [hdist]
    nlinarith [Real.pi_gt_three]
  have hspeed : derivedSpeed ⟨some 10, some 20, some 0, true⟩ 28 20 3600
      = 6371 / 10 * Real.pi := by
    rw [derivedSpeed_of_prior, if_pos (by norm_num : (0 : ℚ) < 3600 - 0), if_pos hpos,
      hdist]
    push_cast
    ring_nf
  have hs2 : step ⟨some 10, some 20, some 0, true⟩ (mkFixEv 28 20 3600)
      = (⟨some 28, some 20, some 3600, true⟩,
         some ⟨⟨2025, 9, 19, 12, 0, 0⟩, 28, 20, 6371 / 10 * Real.pi⟩) := by
    rw [show mkFixEv 28 20 3600
        = ⟨.nmea (.ok ⟨some 28, some 20, none, none⟩), 3600, ⟨2025, 9, 19, 12, 0, 0⟩⟩
        from rfl]
    rw [step_valid _ _ _ _ (by decide)]
    simp only [Option.getD_some]
    rw [show currentTimeOf ⟨some 28, some 20, none, none⟩ 3600 = 3600 from rfl, hspeed]
  have hzero : derivedSpeed ⟨some 28, some 20, some 3600, true⟩ 28 20 3600 = 0 := by
    rw [derivedSpeed_of_prior, if_neg (by norm_num : ¬ (0 : ℚ) < 3600 - 3600)]
  have hs3 : step ⟨some 28, some 20, some 3600, true⟩ (mkFixEv 28 20 3600)
      = (⟨some 28, some 20, some 3600, true⟩,
         some ⟨⟨2025, 9, 19, 12, 0, 0⟩, 28, 20, 0⟩) := by
    rw [show mkFixEv 28 20 3600
        = ⟨.nmea (.ok ⟨some 28, some 20, none, none⟩), 3600, ⟨2025, 9, 19, 12, 0, 0⟩⟩
        from rfl]
    rw [step_valid _ _ _ _ (by decide)]
    simp only [Option.getD_some]
    rw [show currentTimeOf ⟨some 28, some 20, none, none⟩ 3600 = 3600 from rfl, hzero]
  refine ⟨?_, ?_⟩
  · rw [runLoop_cons_some _ _ _ _ _ hs1, runLoop_cons_some _ _ _ _ _ hs2,
      runLoop_cons_some _ _ _ _ _ hs3, runLoop_nil]
    rfl
  · have := Real.pi_pos
    positivity

/-- C5 (amended): the payload formatter is a pure function producing
`"<UTC ts> LAT:<7 decimals> LON:<7 decimals> SPD:<2 decimals>km/h"` — the
fractional parts have exactly 7/7/2 digit characters — but no `"NO_FIX"`
sentinel exists: the formatter never produces it, and a cycle with no valid
fix emits nothing at all. -/
theorem payload_format_spec :
    (∀ tel : Telemetry, ∃ aLat bLat aLon bLon aSpd bSpd : List Char,
      (renderTelemetry tel).data
        = tsChars tel.ts ++ [' ', 'L', 'A', 'T', ':'] ++ (aLat ++ '.' :: bLat)
          ++ [' ', 'L', 'O', 'N', ':'] ++ (aLon ++ '.' :: bLon)
          ++ [' ', 'S', 'P', 'D', ':'] ++ (aSpd ++ '.' :: bSpd) ++ ['k', 'm', '/', 'h']
      ∧ bLat.length = 7 ∧ (∀ c ∈ bLat, c.isDigit = true) ∧ aLat ≠ []
      ∧ bLon.length = 7 ∧ (∀ c ∈ bLon, c.isDigit = true) ∧ aLon ≠ []
      ∧ bSpd.length = 2 ∧ (∀ c ∈ bSpd, c.isDigit = true) ∧ aSpd ≠ [])
    ∧ (∀ tel : Telemetry, renderTelemetry tel ≠ "NO_FIX")
    ∧ (∀ (s : LoopState) (ev : LineEvent),
        evHasValidFix ev = false → (step s ev).2 = none) := by
  refine ⟨?_, renderTelemetry_ne_noFix, step_none_of_no_fix⟩
  intro tel
  obtain ⟨aLat, bLat, e1, l1, d1, n1⟩ := fmtScaled_decompose (round (tel.lat * 10 ^ 7)) 7
  obtain ⟨aLon, bLon, e2, l2, d2, n2⟩ := fmtScaled_decompose (round (tel.lon * 10 ^ 7)) 7
  obtain ⟨aSpd, bSpd, e3, l3, d3, n3⟩ :=
    fmtScaled_decompose (round (tel.speedKmh * 10 ^ 2)) 2
  refine ⟨aLat, bLat, aLon, bLon, aSpd, bSpd, ?_, l1, d1, n1, l2, d2, n2, l3, d3, n3⟩
  unfold renderTelemetry
  rw [show fmtRat tel.lat 7 = fmtScaled (round (tel.lat * 10 ^ 7)) 7 from rfl,
    show fmtRat tel.lon 7 = fmtScaled (round (tel.lon * 10 ^ 7)) 7 from rfl,
    show fmtReal tel.speedKmh 2 = fmtScaled (round (tel.speedKmh * 10 ^ 2)) 2 from rfl,
    e1, e2, e3]

/-- Witness for C5: a cycle with no fix (an empty/unrecognized line) emits
nothing. -/
theorem payload_format_spec_witness :
    evHasValidFix ⟨.skip, 0, ⟨2025, 9, 19, 12, 0, 0⟩⟩ = false
    ∧ (step initState ⟨.skip, 0, ⟨2025, 9, 19, 12, 0, 0⟩⟩).2 = none :=
  ⟨rfl, payload_format_spec.2.2 initState ⟨.skip, 0, ⟨2025, 9, 19, 12, 0, 0⟩⟩ rfl⟩

/-- C5 counterexample: in the never-fixed state the relay sends nothing at
all — it does not emit the claimed `"NO_FIX"` sentinel (no such string exists
in `gps1.py`). -/
theorem no_fix_sentinel_counterexample :
    ((runLoop initState [⟨.skip, 0, ⟨2025, 9, 19, 12, 0, 0⟩⟩]).2.map renderTelemetry) = []
    ∧ ¬ ∃ out ∈ (runLoop initState
        [⟨.skip, 0, ⟨2025, 9, 19, 12, 0, 0⟩⟩]).2.map renderTelemetry, out = "NO_FIX" := by
  have h : runLoop initState [⟨.skip, 0, ⟨2025, 9, 19, 12, 0, 0⟩⟩] = (initState, []) := by
    rw [runLoop_cons_none _ _ _ _ (step_skip _ _ _), runLoop_nil]
  rw [h]
  exact ⟨rfl, by simp⟩

/-- C8: the receiver's regex `LAT:([\d\.\-]+)\s+LON:([\d\.\-]+)\s+SPD:([\d\.]+)km/h`
(`rec.py:173`) matches every formatted payload, and Python `float` on the
three captured groups recovers the original latitude, longitude (within half
of the 7th decimal place) and speed (within half of the 2nd decimal place). -/
theorem payload_roundtrip_spec (t : Timestamp) (lat lon : ℚ) (spd : ℝ)
    (hspd : 0 ≤ spd) :
    ∃ g1 g2 g3 : List Char,
      searchPayload (renderTelemetry ⟨t, lat, lon, spd⟩).data = some (g1, g2, g3)
      ∧ parseFloat g1 = some ((round (lat * 10 ^ 7) : ℤ) / 10 ^ 7 : ℚ)
      ∧ |((round (lat * 10 ^ 7) : ℤ) : ℚ) / 10 ^ 7 - lat| ≤ 1 / (2 * 10 ^ 7)
      ∧ parseFloat g2 = some ((round (lon * 10 ^ 7) : ℤ) / 10 ^ 7 : ℚ)
      ∧ |((round (lon * 10 ^ 7) : ℤ) : ℚ) / 10 ^ 7 - lon| ≤ 1 / (2 * 10 ^ 7)
      ∧ parseFloat g3 = some ((round (spd * 10 ^ 2) : ℤ) / 10 ^ 2 : ℚ)
      ∧ |((round (spd * 10 ^ 2) : ℤ) : ℝ) / 10 ^ 2 - spd| ≤ 1 / (2 * 10 ^ 2) := by
  refine ⟨fmtScaled (round (lat * 10 ^ 7)) 7, fmtScaled (round (lon * 10 ^ 7)) 7,
    fmtScaled (round (spd * 10 ^ 2)) 2, ?_, parseFloat_fmtScaled _ 7,
    round_scaled_close lat 7, parseFloat_fmtScaled _ 7, round_scaled_close lon 7,
    parseFloat_fmtScaled _ 2, round_scaled_close spd 2⟩
  have hform : (renderTelemetry ⟨t, lat, lon, spd⟩).data
      = (tsChars t ++ [' '])
        ++ (['L', 'A', 'T', ':'] ++ fmtScaled (round (lat * 10 ^ 7)) 7
          ++ ' ' :: (['L', 'O', 'N', ':'] ++ fmtScaled (round (lon * 10 ^ 7)) 7
          ++ ' ' :: (['S', 'P', 'D', ':'] ++ fmtScaled (round (spd * 10 ^ 2)) 2
            ++ 'k' :: 'm' :: '/' :: 'h' :: []))) := by
    simp [renderTelemetry, fmtRat, fmtReal, List.append_assoc]
  rw [hform]
  rw [searchPayload_skip (tsChars t ++ [' ']) _ ?_]
  · have hmatch := matchPayloadAt_payload (fmtScaled (round (lat * 10 ^ 7)) 7)
      (fmtScaled (round (lon * 10 ^ 7)) 7) (fmtScaled (round (spd * 10 ^ 2)) 2) []
      (mem_fmtScaled_cls1 _ 7) (fmtScaled_ne_nil _ 7)
      (mem_fmtScaled_cls1 _ 7) (fmtScaled_ne_nil _ 7)
      (mem_fmtScaled_cls2 _ 2 (not_lt.mpr (round_nonneg (by positivity))))
      (fmtScaled_ne_nil _ 2)
    exact searchPayload_cons_of_match 'L' _ _ hmatch
  · intro c hc
    rcases List.mem_append.mp hc with hc | hc
    · exact mem_tsChars_ne_L t c hc
    · simp only [List.mem_singleton] at hc
      subst hc
      decide

/-- Witness for C7: with threshold 2.2 s and last success at 0, a failed send
at t = 3 REINITs, and a failed send 1 s later does not REINIT again. -/
theorem watchdog_reinit_spec_witness :
    (relayCycle ⟨22/10⟩ ⟨false, false, false, false⟩ ⟨0, none, 0⟩ 3 false).2 = true
    ∧ (relayCycle ⟨22/10⟩ ⟨false, false, false, false⟩
        (relayCycle ⟨22/10⟩ ⟨false, false, false, false⟩ ⟨0, none, 0⟩ 3 false).1
        4 false).2 = false := by
  have h := watchdog_reinit_spec ⟨22/10⟩ ⟨false, false, false, false⟩ ⟨0, none, 0⟩ 3 false
  have hre : (relayCycle ⟨22/10⟩ ⟨false, false, false, false⟩ ⟨0, none, 0⟩ 3 false).2
      = true := h.1.mpr ⟨rfl, by norm_num⟩
  exact ⟨hre, h.2.2 4 false hre (by norm_num)⟩

/-- Witness for C8 at a concrete telemetry record (speed 0). -/
theorem payload_roundtrip_spec_witness :
    (0 : ℝ) ≤ 0
    ∧ ∃ g1 g2 g3 : List Char,
      searchPayload (renderTelemetry
          ⟨⟨2025, 9, 19, 12, 0, 0⟩, 127/10, -567/100, 0⟩).data = some (g1, g2, g3)
      ∧ parseFloat g1 = some ((round ((127/10 : ℚ) * 10 ^ 7) : ℤ) / 10 ^ 7 : ℚ)
      ∧ |((round ((127/10 : ℚ) * 10 ^ 7) : ℤ) : ℚ) / 10 ^ 7 - 127/10| ≤ 1 / (2 * 10 ^ 7)
      ∧ parseFloat g2 = some ((round ((-567/100 : ℚ) * 10 ^ 7) : ℤ) / 10 ^ 7 : ℚ)
      ∧ |((round ((-567/100 : ℚ) * 10 ^ 7) : ℤ) : ℚ) / 10 ^ 7 - -567/100|
          ≤ 1 / (2 * 10 ^ 7)
      ∧ parseFloat g3 = some ((round ((0 : ℝ) * 10 ^ 2) : ℤ) / 10 ^ 2 : ℚ)
      ∧ |((round ((0 : ℝ) * 10 ^ 2) : ℤ) : ℝ) / 10 ^ 2 - 0| ≤ 1 / (2 * 10 ^ 2) :=
  ⟨le_refl 0,
   payload_roundtrip_spec ⟨2025, 9, 19, 12, 0, 0⟩ (127/10) (-567/100) 0 (le_refl 0)⟩

/-- C2 (on `gps.py`): `read_location`'s conversion takes the first two
characters of the coordinate field as degrees, so the GGA longitude field
`"01131.000"` (011° 31.000′, ≈ 11.5167°) is parsed as `1 + 131/60 ≈ 3.1833°`,
while the specified DDDMM.MMMM conversion gives `11 + 31/60`; the two differ
by far more than the permitted 1e-6°.  `ant.py`'s `convert_to_decimal` on the
same raw value agrees with the specified conversion to within 1e-6°. -/
theorem gga_longitude_misparse :
    read_location "4807.038".data "N".data "01131.000".data "E".data
      = some (48 + (7038/1000 : ℚ) / 60, 1 + (131 : ℚ) / 60)
    ∧ specDecimalDegrees 1131 false = 11 + (31 : ℚ) / 60
    ∧ |(1 + (131 : ℚ) / 60) - (11 + (31 : ℚ) / 60)| > 1/1000000
    ∧ convert_to_decimal (some 1131) "E" = some (11516667/1000000)
    ∧ |(11516667/1000000 : ℚ) - (11 + (31 : ℚ) / 60)| ≤ 1/1000000 := by
  have hfloor : ⌊(1131 : ℚ) / 100⌋ = 11 := by
    rw [Int.floor_eq_iff]
    norm_num
  have hc1 : convert_to_degrees ("4807.038" : String).data = 48 + (7038/1000 : ℚ) / 60 := by
    unfold convert_to_degrees
    rw [show ("4807.038" : String).data.take 2 = ('4' :: ['8']) from by decide,
      show ("4807.038" : String).data.drop 2
        = (('0' :: ['7']) ++ '.' :: ['0', '3', '8']) from by decide,
      parseFloat_digitsOnly '4' ['8'] (by decide) (by decide),
      parseFloat_intFrac '0' ['7'] ['0', '3', '8'] (by decide) (by decide) (by decide)]
    rw [show parseNat ('4' :: ['8']) = 48 from by decide,
      show parseNat ('0' :: ['7']) = 7 from by decide,
      show parseNat ['0', '3', '8'] = 38 from by decide,
      show (['0', '3', '8'] : List Char).length = 3 from rfl]
    push_cast
    norm_num
  have hc2 : convert_to_degrees ("01131.000" : String).data = 1 + (131 : ℚ) / 60 := by
    unfold convert_to_degrees
    rw [show ("01131.000" : String).data.take 2 = ('0' :: ['1']) from by decide,
      show ("01131.000" : String).data.drop 2
        = (('1' :: ['3', '1']) ++ '.' :: ['0', '0', '0']) from by decide,
      parseFloat_digitsOnly '0' ['1'] (by decide) (by decide),
      parseFloat_intFrac '1' ['3', '1'] ['0', '0', '0'] (by decide) (by decide) (by decide)]
    rw [show parseNat ('0' :: ['1']) = 1 from by decide,
      show parseNat ('1' :: ['3', '1']) = 131 from by decide,
      show parseNat ['0', '0', '0'] = 0 from by decide,
      show (['0', '0', '0'] : List Char).length = 3 from rfl]
    push_cast
    norm_num
  refine ⟨?_, ?_,
    by rw [abs_of_neg (by norm_num)]; norm_num,
    ?_,
    by rw [abs_of_pos (by norm_num)]; norm_num⟩
  · simp only [read_location]
    rw [if_pos (⟨by decide, by decide⟩ :
        ("4807.038" : String).data ≠ [] ∧ ("01131.000" : String).data ≠ [])]
    rw [if_neg (by decide : ¬ ("N" : String).data = ['S']),
      if_neg (by decide : ¬ ("E" : String).data = ['W']), hc1, hc2]
  · unfold specDecimalDegrees
    rw [hfloor]
    push_cast
    norm_num
  · simp only [convert_to_decimal]
    rw [if_neg (by decide : ¬ ("E" : String) = "")]
    rw [if_neg (by decide : ¬ (("E" : String) = "S" ∨ ("E" : String) = "W"))]
    rw [show ((⌊(1131 : ℚ) / 100⌋ : ℤ) : ℚ) + ((1131 : ℚ) - 100 * (⌊(1131 : ℚ) / 100⌋ : ℤ)) / 60
        = 11 + (31 : ℚ) / 60 from by rw [hfloor]; push_cast; norm_num]
    rw [show round ((11 + (31 : ℚ) / 60) * 10 ^ 6) = 11516667 from by
      rw [round_eq, Int.floor_eq_iff]
      norm_num]
    norm_num

end GpsRelay
